import Mathlib

/-!
Shallow embedding of the audio-playback subsystem of y-board-v3
(src/src/yaudio.cpp), used to check the natural-language specification
against the code.

Modelling conventions:
* C `int` variables become `ℤ` (they can go negative); non-negative array
  indices become `ℕ`.
* C `float`/`double` arithmetic becomes exact `ℚ` arithmetic.  Every value
  the claims mention (durations such as 0.5 s or 0.75 s, frequencies such
  as 440 Hz, amplitudes) is an exact dyadic or decimal value for which the
  rational computation agrees with the C floating computation.
* A C cast from a floating value to `int` truncates toward zero; this is
  `cppInt` below.
* `std::stoi`/`std::stof` throw (and the program aborts) when no digits can
  be converted; fallible parsing therefore returns `Option`, with `none`
  standing for the abort.  The while-loops of `parse_next_note` are encoded
  with an explicit fuel argument; the wrappers pass fuel larger than the
  string length, which is sufficient because every loop iteration consumes
  at least one character or terminates.
* The sample values written into `audio_buf` by `generate_silence` /
  `generate_sine_wave` involve `sin` and are not inspected by any claim;
  the model keeps the cursor/occupancy bookkeeping of those loops, which is
  identical in both functions.  The amplitude computation of
  `write_next_note_to_audio_buf` is modelled separately (`note_amplitude`).
-/

namespace YAudio

/-- BITS_PER_SAMPLE / 8, from yaudio.cpp. -/
def BYTES_PER_SAMPLE : ℕ := 2

/-- The fixed output sample rate in Hz (yaudio.cpp line 16). -/
def SAMPLE_RATE : ℤ := 16000

/-- Maximum length of the pending-notes text (yaudio.cpp line 17). -/
def MAX_NOTES_IN_BUFFER : ℕ := 4000

/-- Samples per DMA frame (yaudio.cpp line 28). -/
def FRAME_SIZE : ℕ := 1024

/-- Capacity of the audio ring buffer in frames (yaudio.cpp line 29). -/
def AUDIO_BUF_NUM_FRAMES : ℕ := 100

/-- Total size of `audio_buf` in samples. -/
def AUDIO_BUF_TOTAL : ℕ := FRAME_SIZE * AUDIO_BUF_NUM_FRAMES

/-- Number of WAVE frames to keep buffered (yaudio.cpp line 35). -/
def WAVE_FRAMES_TO_BUFFER : ℤ := 5

/-- C cast of a floating value to `int`: truncation toward zero. -/
def cppInt (q : ℚ) : ℤ := if 0 ≤ q then ⌊q⌋ else ⌈q⌉

/-- The module-level mutable state of yaudio.cpp.  Field names follow the
C globals.  `file_open` stands for whether the `fs::File` handle holds an
open file. -/
@[ext]
structure AudioState where
  audio_buf_num_populated_frames : ℤ
  audio_buf_frame_idx_to_send : ℤ
  audio_buf_empty_idx : ℕ
  i2s_running : Bool
  notes_running : Bool
  wave_running : Bool
  notes : List Char
  beats_per_minute : ℤ
  octave : ℤ
  volume_notes : ℤ
  next_note_parsed : Bool
  next_note_freq : ℚ
  next_note_duration_s : ℚ
  volume_wave : ℤ
  file_open : Bool
deriving DecidableEq

/-- Model of `set_note_defaults` (yaudio.cpp lines 203-207). -/
def set_note_defaults (s : AudioState) : AudioState :=
  { s with beats_per_minute := 120, octave := 5, volume_notes := 5 }

/-- Model of `reset_audio_buf` (yaudio.cpp lines 209-215). -/
def reset_audio_buf (s : AudioState) : AudioState :=
  { s with
    audio_buf_num_populated_frames := 0
    audio_buf_frame_idx_to_send := 0
    audio_buf_empty_idx := 0
    next_note_parsed := false
    notes := [] }

/-- Model of `stop` (yaudio.cpp lines 511-526): halt I2S, close the file if wave is
running, clear the pending notes, reset the ring buffer. -/
def stop (s : AudioState) : AudioState :=
  let s1 := if s.i2s_running then { s with i2s_running := false } else s
  let s2 := if s1.wave_running then
      { s1 with file_open := false, wave_running := false } else s1
  let s3 := if s2.notes_running then
      { s2 with notes_running := false, notes := [] } else s2
  reset_audio_buf s3

/-- Model of `start_i2s` (yaudio.cpp lines 106-112). -/
def start_i2s (s : AudioState) : AudioState :=
  if s.i2s_running then s else { s with i2s_running := true }

/-- Model of `add_notes` (yaudio.cpp lines 75-102): stop a running wave first, then
reject if the pending text would exceed `MAX_NOTES_IN_BUFFER`, otherwise
trim a trailing micro-rest marker z, append the new text plus a fresh z,
and make sure notes mode and I2S are running. -/
def add_notes (new_notes : List Char) (s : AudioState) : Bool × AudioState :=
  let s1 := if s.wave_running then stop s else s
  if MAX_NOTES_IN_BUFFER < s1.notes.length + new_notes.length then
    (false, s1)
  else
    let s2 := if s1.notes.getLast? = some 'z' then
        { s1 with notes := s1.notes.dropLast } else s1
    let s3 := { s2 with notes := s2.notes ++ new_notes ++ ['z'],
                        notes_running := true }
    (true, start_i2s s3)

/-- Channel count declared in a 44-byte WAVE header: little-endian 16-bit
field at byte offset 22 (yaudio.cpp line 544). -/
def wav_num_channels (header : List ℕ) : ℕ :=
  header.getD 22 0 + 256 * header.getD 23 0

/-- Sample rate declared in a 44-byte WAVE header: little-endian 32-bit
field at byte offset 24 (yaudio.cpp line 552). -/
def wav_sample_rate (header : List ℕ) : ℕ :=
  header.getD 24 0 + 256 * header.getD 25 0 + 65536 * header.getD 26 0 +
    16777216 * header.getD 27 0

/-- Model of `play_sound_file` (yaudio.cpp lines 530-563).  The opened file is
modelled by its byte stream `file_bytes`; reading the 44-byte header
yields `file_bytes.take 44`. -/
def play_sound_file (file_bytes : List ℕ) (s : AudioState) : Bool × AudioState :=
  let s1 := { stop s with file_open := true }
  let header := file_bytes.take 44
  if header.length ≠ 44 then
    (false, { s1 with file_open := false })
  else if wav_num_channels header ≠ 1 then
    (false, { s1 with file_open := false })
  else if wav_sample_rate header ≠ 16000 then
    (false, { s1 with file_open := false })
  else
    (true, { start_i2s s1 with wave_running := true })

/-- Model of `set_wave_volume` (yaudio.cpp line 509). -/
def set_wave_volume (new_volume : ℕ) (s : AudioState) : AudioState :=
  { s with volume_wave := if 10 < new_volume then 10 else (new_volume : ℤ) }

/-- The per-sample cursor/occupancy bookkeeping shared by the loops of
`generate_silence` (yaudio.cpp lines 114-128) and `generate_sine_wave`
(lines 130-162): advance `audio_buf_empty_idx` by one modulo the buffer
size and, whenever the new index lands on a frame boundary, count one more
populated frame.  The sample value stored is not modelled (no claim
inspects `audio_buf` contents). -/
def generate_samples : ℕ → AudioState → AudioState
  | 0, s => s
  | n + 1, s =>
    let e := (s.audio_buf_empty_idx + 1) % AUDIO_BUF_TOTAL
    generate_samples n
      { s with
        audio_buf_empty_idx := e
        audio_buf_num_populated_frames :=
          if e % FRAME_SIZE = 0 then s.audio_buf_num_populated_frames + 1
          else s.audio_buf_num_populated_frames }

/-- Reserve space in samples: `(AUDIO_BUF_NUM_FRAMES -
audio_buf_num_populated_frames - 1) * FRAME_SIZE` (yaudio.cpp line 265). -/
def avail_space (s : AudioState) : ℤ :=
  ((AUDIO_BUF_NUM_FRAMES : ℤ) - s.audio_buf_num_populated_frames - 1) *
    (FRAME_SIZE : ℤ)

/-- Model of `int note_samples = next_note_duration_s * SAMPLE_RATE` (yaudio.cpp
line 266): the float product truncated toward zero. -/
def note_samples (s : AudioState) : ℤ :=
  cppInt (s.next_note_duration_s * (SAMPLE_RATE : ℚ))

/-- The amplitude computation of `write_next_note_to_audio_buf`
(yaudio.cpp lines 270-276): base `16000 * (volume_notes / 10.0)` stored in
an `int`, doubled below 800 Hz, ramped on `[800, 1100)` and unmodified at
or above 1100 Hz. -/
def note_amplitude (volume_notes : ℤ) (freq : ℚ) : ℤ :=
  let amplitude := cppInt (16000 * ((volume_notes : ℚ) / 10))
  if freq < 800 then amplitude * 2
  else if freq < 1100 then cppInt ((amplitude : ℚ) * (freq - 800) / 300)
  else amplitude

/-- The amplitude rule as the claim words it: base amplitude
`16000 * (v / 10)`, doubled below 800 Hz, and on `[800, 1100)` the
doubled value linearly scaled between 0x (at 800 Hz) and 1x (at
1100 Hz). -/
def note_amplitude_claimed (volume_notes : ℤ) (freq : ℚ) : ℤ :=
  let base : ℚ := 16000 * ((volume_notes : ℚ) / 10)
  if freq < 800 then cppInt (2 * base)
  else if freq < 1100 then cppInt (2 * base * (freq - 800) / 300)
  else cppInt base

/-- The amplitude rule as amended: on `[800, 1100)` the ramp runs from 0x
at 800 Hz to 1x at 1100 Hz of the base (undoubled) amplitude
`1600 * v`. -/
def note_amplitude_spec (volume_notes : ℤ) (freq : ℚ) : ℤ :=
  let base : ℤ := 1600 * volume_notes
  if freq < 800 then 2 * base
  else if freq < 1100 then cppInt ((base : ℚ) * (freq - 800) / 300)
  else base

/-- Model of `write_next_note_to_audio_buf` (yaudio.cpp lines 262-285): if the
reserve space strictly exceeds the note's sample count, write every sample
of the note (silence and sine runs move the cursors identically) and clear
`next_note_parsed`; otherwise do nothing. -/
def write_next_note_to_audio_buf (s : AudioState) : AudioState :=
  if note_samples s < avail_space s then
    { generate_samples (note_samples s).toNat s with next_note_parsed := false }
  else s

/-- One TX-done iteration of the consumer task `I2Sout` (yaudio.cpp lines
188-199): when `audio_buf_num_populated_frames >= 0` the frame at
`audio_buf_frame_idx_to_send` is handed to `i2s_write`, the send cursor
advances modulo `AUDIO_BUF_NUM_FRAMES` and the populated count is
decremented.  Note the guard is `>= 0`, not `> 0`. -/
def I2Sout_step (s : AudioState) : AudioState :=
  if 0 ≤ s.audio_buf_num_populated_frames then
    { s with
      audio_buf_frame_idx_to_send :=
        (s.audio_buf_frame_idx_to_send + 1) % (AUDIO_BUF_NUM_FRAMES : ℤ)
      audio_buf_num_populated_frames := s.audio_buf_num_populated_frames - 1 }
  else s

/-- The wave branch of `loop` (yaudio.cpp lines 483-502) on a successful
full-frame read: guarded by `audio_buf_num_populated_frames <
WAVE_FRAMES_TO_BUFFER`, commit one frame (the byte-swap and volume scale
touch only sample values). -/
def wave_frame_commit (s : AudioState) : AudioState :=
  if s.audio_buf_num_populated_frames < WAVE_FRAMES_TO_BUFFER then
    { s with
      audio_buf_empty_idx := (s.audio_buf_empty_idx + FRAME_SIZE) % AUDIO_BUF_TOTAL
      audio_buf_num_populated_frames := s.audio_buf_num_populated_frames + 1 }
  else s

/-- Ring-buffer operations available to producer and consumer, for stating
trace properties: a note write (with the given parsed duration), a wave
frame commit, and one consumer TX-done step. -/
inductive BufOp where
  | note_write (duration_s : ℚ)
  | wave_commit
  | consume
deriving DecidableEq

/-- Run a sequence of ring-buffer operations. -/
def run_buf_ops (ops : List BufOp) (s : AudioState) : AudioState :=
  ops.foldl
    (fun t op =>
      match op with
      | BufOp.note_write d =>
          write_next_note_to_audio_buf
            { t with next_note_duration_s := d, next_note_parsed := true }
      | BufOp.wave_commit => wave_frame_commit t
      | BufOp.consume => I2Sout_step t)
    s

/-- C `isspace` on the ASCII characters that can occur in a Lean `Char`:
space, horizontal tab, line feed, vertical tab, form feed, carriage
return. -/
def cIsSpace (c : Char) : Bool :=
  c = ' ' ∨ c = '\t' ∨ c = '\n' ∨ c = '\x0b' ∨ c = '\x0c' ∨ c = '\r'

/-- Numeric value of a string of decimal digits. -/
def digitsVal (l : List Char) : ℕ :=
  l.foldl (fun a c => 10 * a + (c.toNat - 48)) 0

/-- Model of `std::stoi` on a character list: skip leading whitespace, accept an
optional sign, then decimal digits.  Returns the value and the number of
characters consumed, or `none` when the call throws
(`invalid_argument` when no digits are present, `out_of_range` when the
value does not fit an `int`). -/
def cpp_stoi (l : List Char) : Option (ℤ × ℕ) :=
  let ws := l.takeWhile cIsSpace
  let rest := l.drop ws.length
  let signLen : ℕ := match rest with
    | '-' :: _ => 1
    | '+' :: _ => 1
    | _ => 0
  let sign : ℤ := match rest with
    | '-' :: _ => -1
    | _ => 1
  let ds := (rest.drop signLen).takeWhile Char.isDigit
  if ds.length = 0 then none
  else
    let v : ℤ := sign * (digitsVal ds : ℤ)
    if v < -2147483648 ∨ 2147483647 < v then none
    else some (v, ws.length + signLen + ds.length)

/-- Model of `std::stof` on a character list, restricted to the plain decimal forms
the notation language uses: optional whitespace and sign, digits, an
optional decimal point with further digits.  Returns the value and the
number of characters consumed, or `none` when the call throws because no
digits are present.  (Exponent, hexadecimal and inf/nan forms of `stof`
are not modelled; no claim depends on them.) -/
def cpp_stof (l : List Char) : Option (ℚ × ℕ) :=
  let ws := l.takeWhile cIsSpace
  let rest := l.drop ws.length
  let signLen : ℕ := match rest with
    | '-' :: _ => 1
    | '+' :: _ => 1
    | _ => 0
  let sign : ℚ := match rest with
    | '-' :: _ => -1
    | _ => 1
  let body := rest.drop signLen
  let intDigits := body.takeWhile Char.isDigit
  let afterInt := body.drop intDigits.length
  let dotLen : ℕ := match afterInt with
    | '.' :: _ => 1
    | _ => 0
  let fracDigits := (afterInt.drop dotLen).takeWhile Char.isDigit
  if intDigits.length = 0 ∧ fracDigits.length = 0 then none
  else
    let v : ℚ := sign *
      ((digitsVal intDigits : ℚ) + (digitsVal fracDigits : ℚ) / 10 ^ fracDigits.length)
    some (v, ws.length + signLen + intDigits.length + dotLen + fracDigits.length)

/-- Is the character a note token head: A-G, a-g, R, r or z
(yaudio.cpp lines 341-342). -/
def isNoteLetter (c : Char) : Bool :=
  ('A' ≤ c ∧ c ≤ 'G') ∨ ('a' ≤ c ∧ c ≤ 'g') ∨ c = 'R' ∨ c = 'r' ∨ c = 'z'

/-- Base frequency table of the letter switch (yaudio.cpp lines 343-379);
z, R and r map to frequency 0.  The C literals are floats; the claims only
depend on values that are exact (A = 440). -/
def letterFreq (c : Char) : ℚ :=
  if c = 'A' ∨ c = 'a' then 440
  else if c = 'B' ∨ c = 'b' then 49388 / 100
  else if c = 'C' ∨ c = 'c' then 52325 / 100
  else if c = 'D' ∨ c = 'd' then 58733 / 100
  else if c = 'E' ∨ c = 'e' then 65925 / 100
  else if c = 'F' ∨ c = 'f' then 69846 / 100
  else if c = 'G' ∨ c = 'g' then 78399 / 100
  else 0

/-- Stand-in for the `double` value of `pow(2, 1.0 / 12)` (one
equal-tempered semitone, yaudio.cpp lines 424 and 426).  The exact double
is irrational-rounded; every theorem below either quantifies over this
ratio or uses inputs without sharp/flat modifiers, so the precise value is
never load-bearing. -/
def semitoneStep : ℚ := 1059463094359295264561825 / 10 ^ 24

/-- The fields of the module state that `parse_next_note` reads and
writes (besides `next_note_parsed`, handled by the wrapper below): the
pending text and the player state.  Kept as a separate small record so
concrete parses stay tractable. -/
@[ext]
structure NoteState where
  notes : List Char
  beats_per_minute : ℤ
  octave : ℤ
  volume_notes : ℤ
  next_note_freq : ℚ
  next_note_duration_s : ℚ
deriving DecidableEq

/-- The note-modifier loop (yaudio.cpp lines 388-433), with explicit fuel.
State: remaining text, current frequency, current duration, current dot
increment base `dot_duration`.  A decimal integer rescales the duration by
`4 / n` when `n` is in `[1, 2000]` (consumed regardless); a dot halves
`dot_duration` and adds it; `>`/`<` double/halve the frequency; `#`/`+`
and `-` move one semitone up or down.  The first non-modifier character
stops the loop.  `none` models the `std::stoi` out-of-range abort. -/
def note_modifiers (semitone : ℚ) :
    ℕ → List Char → ℚ → ℚ → ℚ → Option (List Char × ℚ × ℚ)
  | 0, _, _, _, _ => none
  | _ + 1, [], freq, dur, _ => some ([], freq, dur)
  | fuel + 1, c :: rest, freq, dur, dot =>
    if c.isDigit then
      -- std::stoi on a digit-headed string: the digit prefix, which must
      -- fit an int.
      let ds := (c :: rest).takeWhile Char.isDigit
      let n : ℤ := (digitsVal ds : ℤ)
      if 2147483647 < n then none
      else
        let dur1 := if 1 ≤ n ∧ n ≤ 2000 then dur * (4 / (n : ℚ)) else dur
        note_modifiers semitone fuel ((c :: rest).dropWhile Char.isDigit) freq dur1 dot
    else if c = '.' then
      note_modifiers semitone fuel rest freq (dur + dot / 2) (dot / 2)
    else if c = '>' then
      note_modifiers semitone fuel rest (freq * 2) dur dot
    else if c = '<' then
      note_modifiers semitone fuel rest (freq / 2) dur dot
    else if c = '#' ∨ c = '+' then
      note_modifiers semitone fuel rest (freq * semitone) dur dot
    else if c = '-' then
      note_modifiers semitone fuel rest (freq / semitone) dur dot
    else some (c :: rest, freq, dur)

/-- The main loop of `parse_next_note` (yaudio.cpp lines 288-461), with
explicit fuel.  Each iteration handles whitespace, the O/T/!/V commands
(consuming their characters whether or not the value is accepted), then
sets the quarter-note duration from the tempo and tries a note letter, an
X explicit-frequency token, or reports a syntax error that discards the
whole queue.  `none` models an uncaught `std::stoi`/`std::stof` throw. -/
def parse_loop (semitone : ℚ) : ℕ → NoteState → Option NoteState
  | 0, _ => none
  | fuel + 1, s =>
    match s.notes with
    | [] => some s
    | c :: rest =>
      if cIsSpace c then
        parse_loop semitone fuel { s with notes := rest }
      else if c = 'O' ∨ c = 'o' then
        -- notes[1] on a one-character string reads the trailing NUL.
        let d : ℤ := ((rest.headD '\x00').toNat : ℤ) - 48
        let s1 := if 4 ≤ d ∧ d ≤ 7 then { s with octave := d } else s
        parse_loop semitone fuel { s1 with notes := rest.drop 1 }
      else if c = 'T' ∨ c = 't' then
        match cpp_stoi rest with
        | none => none
        | some (v, pos) =>
          let s1 := if 40 ≤ v ∧ v ≤ 240 then { s with beats_per_minute := v } else s
          parse_loop semitone fuel { s1 with notes := rest.drop pos }
      else if c = '!' then
        parse_loop semitone fuel
          { s with notes := rest, beats_per_minute := 120, octave := 5, volume_notes := 5 }
      else if c = 'V' ∨ c = 'v' then
        match cpp_stoi rest with
        | none => none
        | some (v, pos) =>
          let s1 := if 1 ≤ v ∧ v ≤ 10 then { s with volume_notes := v } else s
          parse_loop semitone fuel { s1 with notes := rest.drop pos }
      else
        -- Quarter-note duration from the tempo (yaudio.cpp line 336).
        let dur0 : ℚ := 60 / (s.beats_per_minute : ℚ)
        if isNoteLetter c then
          let dur1 : ℚ := if c = 'z' then 2 / 10 else dur0
          let freq : ℚ := letterFreq c * 2 ^ (s.octave - 4)
          match note_modifiers semitone (rest.length + 1) rest freq dur1 dur1 with
          | none => none
          | some (rest1, freq1, dur2) =>
            some { s with notes := rest1, next_note_freq := freq1,
                          next_note_duration_s := dur2 }
        else if c = 'X' ∨ c = 'x' then
          match cpp_stof rest with
          | none => none
          | some (f, pos) =>
            let f1 : ℚ := if 20 ≤ f ∧ f ≤ 20000 then f else 0
            let rest1 := rest.drop pos
            match rest1 with
            | 'M' :: rest2 =>
              (match cpp_stof rest2 with
               | none => none
               | some (ms, mpos) =>
                 some { s with notes := rest2.drop mpos, next_note_freq := f1,
                               next_note_duration_s := ms / 1000 })
            | 'm' :: rest2 =>
              (match cpp_stof rest2 with
               | none => none
               | some (ms, mpos) =>
                 some { s with notes := rest2.drop mpos, next_note_freq := f1,
                               next_note_duration_s := ms / 1000 })
            | _ =>
              some { s with notes := rest1, next_note_freq := f1,
                            next_note_duration_s := dur0 }
        else
          -- Syntax error: discard the whole queue (yaudio.cpp lines 457-460).
          some { s with notes := [], next_note_duration_s := dur0 }

/-- The note-parser fields of the full module state. -/
def AudioState.noteState (s : AudioState) : NoteState :=
  { notes := s.notes
    beats_per_minute := s.beats_per_minute
    octave := s.octave
    volume_notes := s.volume_notes
    next_note_freq := s.next_note_freq
    next_note_duration_s := s.next_note_duration_s }

/-- Model of `parse_next_note` (yaudio.cpp lines 287-463): run the loop on the
parser fields and set `next_note_parsed = true` on every completed call
(line 462). -/
def parse_next_note (semitone : ℚ) (s : AudioState) : Option AudioState :=
  (parse_loop semitone (s.notes.length + 1) s.noteState).map
    (fun t =>
      { s with
        notes := t.notes
        beats_per_minute := t.beats_per_minute
        octave := t.octave
        volume_notes := t.volume_notes
        next_note_freq := t.next_note_freq
        next_note_duration_s := t.next_note_duration_s
        next_note_parsed := true })

/-- The module state right after `setup` (yaudio.cpp lines 217-260):
buffer reset, note defaults, wave volume 5, I2S driver installed and
running. -/
def setup_state : AudioState :=
  { audio_buf_num_populated_frames := 0
    audio_buf_frame_idx_to_send := 0
    audio_buf_empty_idx := 0
    i2s_running := true
    notes_running := false
    wave_running := false
    notes := []
    beats_per_minute := 120
    octave := 5
    volume_notes := 5
    next_note_parsed := false
    next_note_freq := 0
    next_note_duration_s := 0
    volume_wave := 5
    file_open := false }

/-- A state with wave playback active and the file open, as after a
successful `play_sound_file`. -/
def wave_session_state : AudioState :=
  { setup_state with wave_running := true, file_open := true }


/-! ## Helper lemmas -/

theorem generate_samples_spec (n : ℕ) (s : AudioState)
    (h : s.audio_buf_empty_idx < AUDIO_BUF_TOTAL) :
    generate_samples n s =
      { s with
        audio_buf_empty_idx := (s.audio_buf_empty_idx + n) % AUDIO_BUF_TOTAL
        audio_buf_num_populated_frames := s.audio_buf_num_populated_frames +
          ((s.audio_buf_empty_idx + n) / FRAME_SIZE -
            s.audio_buf_empty_idx / FRAME_SIZE : ℕ) } := by
  induction n generalizing s with
  | zero =>
    simp only [generate_samples]
    ext <;> simp [Nat.mod_eq_of_lt h]
  | succ n ih =>
    simp only [generate_samples]
    rw [ih]
    · simp only [AUDIO_BUF_TOTAL, FRAME_SIZE, AUDIO_BUF_NUM_FRAMES] at h ⊢
      ext <;> dsimp only <;> (try rfl) <;> (try split_ifs) <;> omega
    · simp only [AUDIO_BUF_TOTAL, FRAME_SIZE, AUDIO_BUF_NUM_FRAMES] at h ⊢
      omega

theorem stop_eq (s : AudioState) :
    stop s =
      { s with
        audio_buf_num_populated_frames := 0
        audio_buf_frame_idx_to_send := 0
        audio_buf_empty_idx := 0
        next_note_parsed := false
        notes := []
        i2s_running := false
        notes_running := false
        wave_running := false
        file_open := if s.wave_running then false else s.file_open } := by
  cases s with
  | mk a b c i2s nr wr ns bpm oct vol pp fr du vw fo =>
    cases i2s <;> cases nr <;> cases wr <;> simp [stop, reset_audio_buf]

/-! ## Claim theorems -/

/-- C1 (code_bug evidence): a ring-buffer operation sequence that fully
respects the capacity contract — one note write of exactly one frame made
with 99 frames of reserve space, then two consumer steps — drives
`audio_buf_num_populated_frames` to -1: the invariant
`0 ≤ populated_frames` claimed by the spec is violated because `I2Sout`
consumes under the guard `populated_frames ≥ 0` instead of `> 0`. -/
theorem populated_frames_goes_negative_on_legal_trace :
    (run_buf_ops [BufOp.note_write (1024 / 16000), BufOp.consume, BufOp.consume]
        setup_state).audio_buf_num_populated_frames = -1 ∧
    ¬(0 ≤ (run_buf_ops [BufOp.note_write (1024 / 16000), BufOp.consume, BufOp.consume]
        setup_state).audio_buf_num_populated_frames) := by
  have hns : note_samples { setup_state with
      next_note_duration_s := 1024 / 16000, next_note_parsed := true } = 1024 := by
    norm_num [note_samples, cppInt, setup_state, SAMPLE_RATE]
  have hw : write_next_note_to_audio_buf { setup_state with
      next_note_duration_s := 1024 / 16000, next_note_parsed := true } =
      { setup_state with
        next_note_duration_s := 1024 / 16000, next_note_parsed := false
        audio_buf_empty_idx := 1024, audio_buf_num_populated_frames := 1 } := by
    rw [write_next_note_to_audio_buf, if_pos]
    · rw [hns]
      rw [generate_samples_spec]
      · ext <;> simp [setup_state, AUDIO_BUF_TOTAL, FRAME_SIZE, AUDIO_BUF_NUM_FRAMES]
      · simp [setup_state, AUDIO_BUF_TOTAL, FRAME_SIZE, AUDIO_BUF_NUM_FRAMES]
    · rw [hns]
      norm_num [avail_space, setup_state, AUDIO_BUF_NUM_FRAMES, FRAME_SIZE]
  simp only [run_buf_ops, List.foldl]
  rw [hw]
  norm_num [I2Sout_step, AUDIO_BUF_NUM_FRAMES]

/-- C2 (code_bug evidence): at a state with `populated_frames == 0`, the
consumer step of `I2Sout` on a TX-done signal is not a no-op: it advances
the send cursor (handing the stale frame there to `i2s_write`) and
decrements the populated count to -1, because its guard is
`audio_buf_num_populated_frames >= 0` rather than `> 0`. -/
theorem consume_on_empty_is_not_noop :
    I2Sout_step { setup_state with audio_buf_empty_idx := 2048 } ≠
      { setup_state with audio_buf_empty_idx := 2048 } ∧
    (I2Sout_step { setup_state with
        audio_buf_empty_idx := 2048 }).audio_buf_num_populated_frames = -1 ∧
    (I2Sout_step { setup_state with
        audio_buf_empty_idx := 2048 }).audio_buf_frame_idx_to_send = 1 := by
  refine ⟨?_, ?_, ?_⟩
  · intro hcontra
    have := congrArg AudioState.audio_buf_num_populated_frames hcontra
    norm_num [I2Sout_step, setup_state, AUDIO_BUF_NUM_FRAMES] at this
  · norm_num [I2Sout_step, setup_state, AUDIO_BUF_NUM_FRAMES]
  · norm_num [I2Sout_step, setup_state, AUDIO_BUF_NUM_FRAMES]

/-- C7 (counterexample to the universal claim): when wave playback is
running, `add_notes` stops it before the capacity check, so an oversized
submit is rejected and still changes the playback state. -/
theorem add_notes_reject_during_wave_changes_state :
    (add_notes (List.replicate 4001 'a') wave_session_state).1 = false ∧
    (add_notes (List.replicate 4001 'a') wave_session_state).2 ≠
      wave_session_state := by
  have h2 : (add_notes (List.replicate 4001 'a') wave_session_state).2.wave_running
      = false := by
    simp [add_notes, stop_eq, MAX_NOTES_IN_BUFFER, wave_session_state,
      -List.reduceReplicate]
  refine ⟨?_, ?_⟩
  · simp [add_notes, stop_eq, MAX_NOTES_IN_BUFFER, wave_session_state,
      -List.reduceReplicate]
  · intro hcontra
    rw [hcontra] at h2
    simp [wave_session_state] at h2

/-- C7 (amended claim): provided wave playback is not active, a submit
whose pending plus new length exceeds `MAX_NOTES_IN_BUFFER` is rejected
and leaves the module state (pending text included) entirely unchanged. -/
theorem add_notes_overflow_rejected (new_notes : List Char) (s : AudioState)
    (hw : s.wave_running = false)
    (hlen : MAX_NOTES_IN_BUFFER < s.notes.length + new_notes.length) :
    add_notes new_notes s = (false, s) := by
  simp [add_notes, hw, hlen]

/-- C7 witness: pending text of length 3999 (maximum minus one), new text
of length 2: rejected, state unchanged. -/
theorem add_notes_overflow_rejected_at_3999_plus_2 :
    add_notes ['a', 'b']
        { setup_state with notes := List.replicate 3999 'c', notes_running := true } =
      (false,
        { setup_state with notes := List.replicate 3999 'c', notes_running := true }) := by
  apply add_notes_overflow_rejected
  · rfl
  · rw [List.length_replicate]
    norm_num [MAX_NOTES_IN_BUFFER]

/-- C8: starting wave playback from a 44-byte header that declares a
channel count other than 1 or a sample rate other than 16000 Hz fails,
closes the file and leaves the session idle (no mode active, I2S not
started). -/
theorem play_sound_file_bad_header_rejected (file_bytes : List ℕ) (s : AudioState)
    (hlen : 44 ≤ file_bytes.length)
    (hbad : wav_num_channels (file_bytes.take 44) ≠ 1 ∨
      wav_sample_rate (file_bytes.take 44) ≠ 16000) :
    (play_sound_file file_bytes s).1 = false ∧
    (play_sound_file file_bytes s).2.notes_running = false ∧
    (play_sound_file file_bytes s).2.wave_running = false ∧
    (play_sound_file file_bytes s).2.i2s_running = false ∧
    (play_sound_file file_bytes s).2.file_open = false := by
  have htake : (file_bytes.take 44).length = 44 := by
    simp [List.length_take]
    omega
  unfold play_sound_file
  rcases hbad with hb | hb
  · simp [htake, hb, stop_eq]
  · by_cases hc : wav_num_channels (file_bytes.take 44) = 1
    · simp [htake, hc, hb, stop_eq]
    · simp [htake, hc, stop_eq]

/-- C8 witness: a 44-byte header declaring 2 channels is rejected and the
session is left idle with the file closed. -/
theorem play_sound_file_two_channels_rejected :
    (play_sound_file (List.replicate 22 0 ++ 2 :: List.replicate 21 0)
        setup_state).1 = false ∧
    (play_sound_file (List.replicate 22 0 ++ 2 :: List.replicate 21 0)
        setup_state).2.notes_running = false ∧
    (play_sound_file (List.replicate 22 0 ++ 2 :: List.replicate 21 0)
        setup_state).2.wave_running = false ∧
    (play_sound_file (List.replicate 22 0 ++ 2 :: List.replicate 21 0)
        setup_state).2.i2s_running = false ∧
    (play_sound_file (List.replicate 22 0 ++ 2 :: List.replicate 21 0)
        setup_state).2.file_open = false :=
  play_sound_file_bad_header_rejected _ setup_state (by decide)
    (Or.inl (by decide))

/-- C9: `stop` is idempotent, and afterwards the pending text is empty,
the ring-buffer cursors and populated-frame count are zero, the parsed
flag is cleared, the file handle is closed and no mode (notes, wave, I2S)
is active.  The hypothesis records that in every reachable state an open
file implies wave mode (the only code path opening the file). -/
theorem stop_idempotent_and_resets (s : AudioState)
    (h : s.file_open = true → s.wave_running = true) :
    stop (stop s) = stop s ∧
    (stop s).notes = [] ∧
    (stop s).audio_buf_num_populated_frames = 0 ∧
    (stop s).audio_buf_frame_idx_to_send = 0 ∧
    (stop s).audio_buf_empty_idx = 0 ∧
    (stop s).next_note_parsed = false ∧
    (stop s).file_open = false ∧
    (stop s).i2s_running = false ∧
    (stop s).wave_running = false ∧
    (stop s).notes_running = false := by
  have hfile : (stop s).file_open = false := by
    rw [stop_eq]
    cases hw : s.wave_running
    · cases hf : s.file_open
      · simp
      · exact absurd (h hf) (by simp [hw])
    · simp
  refine ⟨?_, ?_, ?_, ?_, ?_, ?_, hfile, ?_, ?_, ?_⟩ <;>
    simp_all [stop_eq]

/-- C9 witness: stopping from a running wave session. -/
theorem stop_idempotent_and_resets_witness :
    stop (stop wave_session_state) = stop wave_session_state ∧
    (stop wave_session_state).notes = [] ∧
    (stop wave_session_state).audio_buf_num_populated_frames = 0 ∧
    (stop wave_session_state).audio_buf_frame_idx_to_send = 0 ∧
    (stop wave_session_state).audio_buf_empty_idx = 0 ∧
    (stop wave_session_state).next_note_parsed = false ∧
    (stop wave_session_state).file_open = false ∧
    (stop wave_session_state).i2s_running = false ∧
    (stop wave_session_state).wave_running = false ∧
    (stop wave_session_state).notes_running = false :=
  stop_idempotent_and_resets wave_session_state (fun _ => rfl)

theorem note_modifiers_dots (semitone : ℚ) (k : ℕ) :
    ∀ (fuel : ℕ) (f d t : ℚ), k < fuel →
      note_modifiers semitone fuel (List.replicate k '.') f d t =
        some ([], f, d + t * (1 - (1/2 : ℚ) ^ k)) := by
  induction k with
  | zero =>
    intro fuel f d t hf
    match fuel, hf with
    | m + 1, _ => simp [note_modifiers]
  | succ k ih =>
    intro fuel f d t hf
    match fuel, hf with
    | m + 1, hf =>
      rw [List.replicate_succ, note_modifiers]
      simp +decide only [reduceIte]
      rw [ih m f (d + t / 2) (t / 2) (by omega)]
      simp only [Option.some.injEq, Prod.mk.injEq, true_and, and_true]
      ring

theorem parse_loop_A_dots (semitone : ℚ) (b o v : ℤ) (f d : ℚ) (k : ℕ) :
    parse_loop semitone (k + 2) ⟨'A' :: List.replicate k '.', b, o, v, f, d⟩ =
      some ⟨[], b, o, v, 440 * 2 ^ (o - 4),
        (60 / (b : ℚ)) * (2 - (1/2 : ℚ) ^ k)⟩ := by
  rw [parse_loop]
  simp +decide only [reduceIte, letterFreq, List.length_replicate]
  rw [note_modifiers_dots semitone k (k + 1) _ _ _ (by omega)]
  simp only [Option.some.injEq, NoteState.mk.injEq, true_and, and_true]
  ring

theorem takeWhile_digit_eight_dots (k : ℕ) :
    ('8' :: List.replicate k '.').takeWhile Char.isDigit = ['8'] := by
  cases k with
  | zero => simp +decide
  | succ k => simp +decide [List.replicate_succ, List.takeWhile_cons]

theorem dropWhile_digit_eight_dots (k : ℕ) :
    ('8' :: List.replicate k '.').dropWhile Char.isDigit = List.replicate k '.' := by
  cases k with
  | zero => simp +decide
  | succ k => simp +decide [List.replicate_succ, List.dropWhile_cons]

theorem parse_loop_C8_dots (semitone : ℚ) (b o v : ℤ) (f d : ℚ) (k : ℕ) :
    parse_loop semitone (k + 3) ⟨'C' :: '8' :: List.replicate k '.', b, o, v, f, d⟩ =
      some ⟨[], b, o, v, (52325 / 100) * 2 ^ (o - 4),
        (60 / (b : ℚ)) * (4 / 8) + (60 / (b : ℚ)) * (1 - (1/2 : ℚ) ^ k)⟩ := by
  rw [parse_loop]
  simp +decide only [reduceIte, letterFreq, List.length_cons, List.length_replicate]
  rw [note_modifiers]
  simp +decide only [reduceIte, takeWhile_digit_eight_dots, dropWhile_digit_eight_dots,
    show digitsVal ['8'] = 8 from rfl]
  rw [note_modifiers_dots semitone k (k + 1) _ _ _ (by omega)]
  simp only [Option.some.injEq, NoteState.mk.injEq, true_and, and_true]
  push_cast
  ring

/-- C3 (counterexample): at the default tempo (120 bpm), parsing C8.
(eighth note, one dot) resolves the duration to 0.5 s, not the
0.25 s the claimed formula `d * (2 - 2 ^ (1 - k))` gives for the post-
fraction base d = 0.25 s and k = 1, and not the 0.375 s that dotting the
post-fraction duration by ×1.5 would give: dot increments are seeded from
the pre-fraction quarter duration. -/
theorem parse_C8_dot_duration_counterexample :
    (parse_next_note semitoneStep { setup_state with notes := ['C', '8', '.'] }).map
      (fun t => t.next_note_duration_s) = some (1/2) ∧
    ((1/2 : ℚ) ≠ (1/4) * (2 - (2 : ℚ) ^ ((1 : ℤ) - 1))) ∧
    ((1/2 : ℚ) ≠ 3/8) := by
  refine ⟨?_, by norm_num, by norm_num⟩
  have h := parse_loop_C8_dots semitoneStep 120 5 5 0 0 1
  norm_num at h
  rw [parse_next_note]
  norm_num [AudioState.noteState, setup_state]
  rw [h]
  norm_num

/-- C3 (amended claim): for every tempo `b` and `k` dots, a note with no
other modifiers of base duration `d = 60 / b` resolves to
`d * (2 - 2 ^ (-k))` (not `d * (2 - 2 ^ (1 - k))`), and when a
duration-fraction modifier (here 8) precedes the dots, each dot increment
is halved starting from the pre-fraction quarter-note duration `60 / b`,
giving `d * (4 / 8) + d * (1 - 2 ^ (-k))`. -/
theorem parse_dotted_durations (b : ℤ) (k : ℕ) :
    (parse_next_note semitoneStep
        { setup_state with beats_per_minute := b,
                           notes := 'A' :: List.replicate k '.' }).map
      (fun t => t.next_note_duration_s) =
      some ((60 / (b : ℚ)) * (2 - (1/2 : ℚ) ^ k)) ∧
    (parse_next_note semitoneStep
        { setup_state with beats_per_minute := b,
                           notes := 'C' :: '8' :: List.replicate k '.' }).map
      (fun t => t.next_note_duration_s) =
      some ((60 / (b : ℚ)) * (4 / 8) + (60 / (b : ℚ)) * (1 - (1/2 : ℚ) ^ k)) := by
  constructor
  · rw [parse_next_note]
    have hns : ({ setup_state with beats_per_minute := b, notes := 'A' :: List.replicate k '.' } : AudioState).noteState = ⟨'A' :: List.replicate k '.', b, 5, 5, 0, 0⟩ := by
      simp [AudioState.noteState, setup_state]
    rw [hns]
    have hlen : ({ setup_state with beats_per_minute := b, notes := 'A' :: List.replicate k '.' } : AudioState).notes.length = k + 1 := by
      simp
    rw [hlen, parse_loop_A_dots]
    simp
  · rw [parse_next_note]
    have hns : ({ setup_state with beats_per_minute := b, notes := 'C' :: '8' :: List.replicate k '.' } : AudioState).noteState = ⟨'C' :: '8' :: List.replicate k '.', b, 5, 5, 0, 0⟩ := by
      simp [AudioState.noteState, setup_state]
    rw [hns]
    have hlen : ({ setup_state with beats_per_minute := b, notes := 'C' :: '8' :: List.replicate k '.' } : AudioState).notes.length = k + 2 := by
      simp
    rw [hlen, parse_loop_C8_dots]
    simp

/-- C4 (counterexample): at the default octave (5), parsing the note
letter A resolves the frequency to 880 Hz, not 440 Hz: the base table is
referenced at octave 4 and scaled by `2 ^ (octave - 4)`. -/
theorem parse_A_default_octave_counterexample :
    (parse_next_note semitoneStep { setup_state with notes := ['A'] }).map
      (fun t => t.next_note_freq) = some 880 ∧ (880 : ℚ) ≠ 440 := by
  refine ⟨?_, by norm_num⟩
  have h := parse_loop_A_dots semitoneStep 120 5 5 0 0 0
  norm_num at h
  rw [parse_next_note]
  norm_num [AudioState.noteState, setup_state]
  rw [h]
  norm_num

/-- C4 (amended claim): for every octave value `o`, parsing the note
letter A resolves its frequency to `440 * 2 ^ (o - 4)` Hz; at the default
octave (5) this is 880 Hz, not 440 Hz. -/
theorem parse_A_frequency_octaves (o : ℤ) :
    (parse_next_note semitoneStep
        { setup_state with octave := o, notes := ['A'] }).map
      (fun t => t.next_note_freq) = some (440 * (2 : ℚ) ^ (o - 4)) ∧
    (parse_next_note semitoneStep { setup_state with notes := ['A'] }).map
      (fun t => t.next_note_freq) = some 880 := by
  constructor
  · have h := parse_loop_A_dots semitoneStep 120 o 5 0 0 0
    norm_num at h
    rw [parse_next_note]
    norm_num [AudioState.noteState, setup_state]
    rw [h]
    norm_num
  · have h := parse_loop_A_dots semitoneStep 120 5 5 0 0 0
    norm_num at h
    rw [parse_next_note]
    norm_num [AudioState.noteState, setup_state]
    rw [h]
    norm_num

/-- C5 (counterexample): at volume 5 and 950 Hz the code computes
amplitude 4000 (the ramp scales the base amplitude 8000), while the
claimed rule — the doubled value 16000 scaled by (950 - 800) / 300 —
gives 8000. -/
theorem note_amplitude_ramp_counterexample :
    note_amplitude 5 950 = 4000 ∧ note_amplitude_claimed 5 950 = 8000 ∧
    note_amplitude 5 950 ≠ note_amplitude_claimed 5 950 := by
  norm_num [note_amplitude, note_amplitude_claimed, cppInt]

/-- C5 (amended claim): for every volume `v` and frequency `f`, the code
amplitude is the base `1600 * v = 16000 * (v / 10)`, doubled below
800 Hz, linearly ramped on `[800, 1100)` between 0x (at 800 Hz) and 1x
(at 1100 Hz) of the base — not the doubled — amplitude, and unmodified at
or above 1100 Hz. -/
theorem note_amplitude_matches_spec (v : ℤ) (f : ℚ) :
    note_amplitude v f = note_amplitude_spec v f := by
  have hbase : cppInt (16000 * ((v : ℚ) / 10)) = 1600 * v := by
    have h1 : (16000 : ℚ) * ((v : ℚ) / 10) = ((1600 * v : ℤ) : ℚ) := by push_cast; ring
    rw [cppInt, h1]
    split_ifs
    · exact Int.floor_intCast _
    · exact Int.ceil_intCast _
  simp only [note_amplitude, note_amplitude_spec, hbase]
  split_ifs <;> [ring; rfl; rfl]

/-- C6 (counterexample): a note of 6.336 s at the empty buffer makes the
sample count (101376) exactly equal to the reserve space: the reserve is
not smaller than the note, yet the render call defers (the code writes
only on strict inequality). -/
theorem write_note_defers_at_exact_fit :
    write_next_note_to_audio_buf
        { setup_state with next_note_parsed := true, next_note_duration_s := 6336/1000 } =
      { setup_state with next_note_parsed := true, next_note_duration_s := 6336/1000 } ∧
    avail_space
        { setup_state with next_note_parsed := true, next_note_duration_s := 6336/1000 } =
      note_samples
        { setup_state with next_note_parsed := true, next_note_duration_s := 6336/1000 } := by
  constructor
  · rw [write_next_note_to_audio_buf, if_neg]
    norm_num [note_samples, avail_space, cppInt, setup_state, SAMPLE_RATE,
      AUDIO_BUF_NUM_FRAMES, FRAME_SIZE]
  · norm_num [note_samples, avail_space, cppInt, setup_state, SAMPLE_RATE,
      AUDIO_BUF_NUM_FRAMES, FRAME_SIZE]

/-- C6 (amended claim): the render step defers — leaving the state
entirely unchanged — exactly when the reserve space in samples,
`(capacity - populated - 1) * frame_size`, is less than or equal to the
note's sample count `⌊duration * sample_rate⌋` (the claim said strictly
less than); otherwise it writes all the note's samples (the write cursor
advances by the full sample count, the populated count grows by the
frames completed) and clears the parsed-note flag. -/
theorem write_next_note_characterization (s : AudioState)
    (he : s.audio_buf_empty_idx < AUDIO_BUF_TOTAL) :
    (avail_space s ≤ note_samples s → write_next_note_to_audio_buf s = s) ∧
    (note_samples s < avail_space s →
      write_next_note_to_audio_buf s =
        { s with
          audio_buf_empty_idx :=
            (s.audio_buf_empty_idx + (note_samples s).toNat) % AUDIO_BUF_TOTAL
          audio_buf_num_populated_frames := s.audio_buf_num_populated_frames +
            ((s.audio_buf_empty_idx + (note_samples s).toNat) / FRAME_SIZE -
              s.audio_buf_empty_idx / FRAME_SIZE : ℕ)
          next_note_parsed := false }) := by
  constructor
  · intro hle
    rw [write_next_note_to_audio_buf, if_neg (by omega)]
  · intro hlt
    rw [write_next_note_to_audio_buf, if_pos hlt, generate_samples_spec _ _ he]

/-- C6 witness: at the empty buffer a 7 s note (112000 samples, exceeding
the 101376-sample reserve) is deferred: the state is unchanged. -/
theorem write_next_note_characterization_witness :
    write_next_note_to_audio_buf
        { setup_state with next_note_parsed := true, next_note_duration_s := 7 } =
      { setup_state with next_note_parsed := true, next_note_duration_s := 7 } :=
  (write_next_note_characterization _
      (by norm_num [setup_state, AUDIO_BUF_TOTAL, FRAME_SIZE, AUDIO_BUF_NUM_FRAMES])).1
    (by norm_num [note_samples, avail_space, cppInt, setup_state, SAMPLE_RATE,
      AUDIO_BUF_NUM_FRAMES, FRAME_SIZE])

/-- C10: every completed call of `parse_next_note` — whatever the input,
including state-setting commands only, syntax errors, and the empty
queue — leaves `next_note_parsed = true` (yaudio.cpp line 462 runs
unconditionally), so the next scheduler step will attempt to render the
stored frequency/duration values. -/
theorem parse_next_note_sets_parsed_flag (semitone : ℚ) (s t : AudioState)
    (h : parse_next_note semitone s = some t) :
    t.next_note_parsed = true := by
  unfold parse_next_note at h
  rcases Option.map_eq_some'.mp h with ⟨u, -, hu⟩
  exact hu ▸ rfl

/-- C10 witness: a syntax-error input (a lone ?) completes the call,
discards the queue and still sets the parsed flag. -/
theorem parse_next_note_sets_parsed_flag_witness :
    ({ setup_state with notes := [], next_note_duration_s := 1/2, next_note_parsed := true } : AudioState).next_note_parsed = true :=
  parse_next_note_sets_parsed_flag semitoneStep
    { setup_state with notes := ['?'] }
    { setup_state with notes := [], next_note_duration_s := 1/2, next_note_parsed := true }
    (by
      rw [parse_next_note]
      norm_num [AudioState.noteState, setup_state]
      rw [parse_loop]
      norm_num +decide [cIsSpace, isNoteLetter])

end YAudio
